import Mathlib

/-!
Shallow embedding of the cflat type checker (src/types.cpp, src/ast.cpp,
src/checker.cpp) and proofs about its specification.

C++ `std::shared_ptr<Type>` values inside well-formed ASTs are non-null, so
types are embedded as a plain inductive tree.  Checking functions that throw
`std::runtime_error` are embedded as `Except String` computations carrying
the exact message strings built by the source.
-/

set_option genSizeOfSpec false
set_option genInjectivity false

namespace Cflat

/-- `TypeKind` from src/types.hpp. -/
inductive TypeKind where
  | INT
  | NIL
  | STRUCT
  | ARRAY
  | POINTER
  | FUNCTION
deriving DecidableEq

/-- The type tree: `IntType`, `NilType`, `StructType`, `ArrayType`,
`PointerType`, `FunctionType` from src/types.hpp. -/
inductive Ty where
  | int
  | nil
  | struct (name : String)
  | array (elementType : Ty)
  | ptr (pointeeType : Ty)
  | fn (paramTypes : List Ty) (returnType : Ty)

/-- `getTypeKind` of each variant (src/types.cpp). -/
def Ty.kind : Ty → TypeKind
  | .int => .INT
  | .nil => .NIL
  | .struct _ => .STRUCT
  | .array _ => .ARRAY
  | .ptr _ => .POINTER
  | .fn _ _ => .FUNCTION

mutual

/-- `typesEqual` (src/types.cpp:6) dispatching to each variant's `equals`:
`IntType::equals` accepts only kind INT; `NilType::equals` accepts kinds
NIL, ARRAY and POINTER; `StructType::equals` compares names;
`ArrayType::equals` accepts NIL and recurses on ARRAY;
`PointerType::equals` accepts NIL and recurses on POINTER;
`FunctionType::equals` compares lengths, then parameters pairwise, then
return types. -/
def typesEqual : Ty → Ty → Bool
  | .int, b => b.kind == .INT
  | .nil, b => b.kind == .NIL || b.kind == .ARRAY || b.kind == .POINTER
  | .struct n, .struct m => n == m
  | .struct _, _ => false
  | .array _, .nil => true
  | .array e, .array f => typesEqual e f
  | .array _, _ => false
  | .ptr _, .nil => true
  | .ptr p, .ptr q => typesEqual p q
  | .ptr _, _ => false
  | .fn ps r, .fn qs s =>
      ps.length == qs.length && typesEqualList ps qs && typesEqual r s
  | .fn _ _, _ => false

/-- The parameter-by-parameter loop of `FunctionType::equals`
(src/types.cpp:162), run after the length test succeeded. -/
def typesEqualList : List Ty → List Ty → Bool
  | [], [] => true
  | a :: as, b :: bs => typesEqual a b && typesEqualList as bs
  | _, _ => false

end

mutual

/-- `toString` of each type variant (src/types.cpp).  Pointee/element
pointers are non-null in a well-formed tree, so the `<null>` branches of the
source cannot fire. -/
def Ty.toStr : Ty → String
  | .int => "Int"
  | .nil => "Nil"
  | .struct name => "Struct(\"" ++ name ++ "\")"
  | .array elementType => "Array(" ++ elementType.toStr ++ ")"
  | .ptr pointeeType => "Ptr(" ++ pointeeType.toStr ++ ")"
  | .fn paramTypes returnType =>
      "Fn([" ++ String.intercalate ", " (tyListToStr paramTypes) ++ "], "
        ++ returnType.toStr ++ ")"

def tyListToStr : List Ty → List String
  | [] => []
  | t :: ts => t.toStr :: tyListToStr ts

end

mutual

/-- `toStringPretty` of each type variant (src/types.cpp). -/
def Ty.toStringPretty : Ty → String
  | .int => "int"
  | .nil => "nil"
  | .struct name => name
  | .array elementType => "[" ++ elementType.toStringPretty ++ "]"
  | .ptr pointeeType => "&" ++ pointeeType.toStringPretty
  | .fn paramTypes returnType =>
      "(" ++ String.intercalate ", " (tyListToStringPretty paramTypes) ++ ") -> "
        ++ returnType.toStringPretty

def tyListToStringPretty : List Ty → List String
  | [] => []
  | t :: ts => t.toStringPretty :: tyListToStringPretty ts

end

/-- `UnaryOperand` (src/ast.hpp). -/
inductive UnaryOperand where
  | NEG
  | NOT
deriving DecidableEq

/-- `BinaryOperand` (src/ast.hpp). -/
inductive BinaryOperand where
  | ADD
  | SUB
  | MUL
  | DIV
  | AND
  | OR
  | EQ
  | NOT_EQ
  | LT
  | LTE
  | GT
  | GTE
deriving DecidableEq

/-- `unaryOperandToString` (src/ast.cpp:8). -/
def unaryOperandToString : UnaryOperand → String
  | .NEG => "Neg"
  | .NOT => "Not"

/-- `binaryOperandToString` (src/ast.cpp:17). -/
def binaryOperandToString : BinaryOperand → String
  | .ADD => "Add"
  | .SUB => "Sub"
  | .MUL => "Mul"
  | .DIV => "Div"
  | .AND => "And"
  | .OR => "Or"
  | .EQ => "Eq"
  | .NOT_EQ => "NotEq"
  | .LT => "Lt"
  | .LTE => "Lte"
  | .GT => "Gt"
  | .GTE => "Gte"

mutual

/-- Expression nodes (src/ast.hpp).  `CallExpression` holds a
`FunctionCall{callee, args}`, flattened here into the `call` constructor. -/
inductive Expr where
  | value (place : Place)
  | num (value : Int)
  | nil
  | select (guard ttCase ffCase : Expr)
  | unop (op : UnaryOperand) (expression : Expr)
  | binop (op : BinaryOperand) (lhs rhs : Expr)
  | newSingleton (ty : Ty)
  | newArray (ty : Ty) (size : Expr)
  | call (callee : Expr) (args : List Expr)

/-- Place nodes (src/ast.hpp). -/
inductive Place where
  | id (name : String)
  | deref (expression : Expr)
  | arrayAccess (array index : Expr)
  | fieldAccess (pointer : Expr) (field : String)

end

mutual

/-- `toString` of each expression variant (src/ast.cpp). -/
def Expr.toStr : Expr → String
  | .value place => "Val(" ++ place.toStr ++ ")"
  | .num value => "Num(" ++ toString value ++ ")"
  | .nil => "Nil"
  | .select guard ttCase ffCase =>
      "Select \x7b guard: " ++ guard.toStr ++ ", tt: " ++ ttCase.toStr
        ++ ", ff: " ++ ffCase.toStr ++ " \x7d"
  | .unop op expression =>
      "UnOp(" ++ unaryOperandToString op ++ ", " ++ expression.toStr ++ ")"
  | .binop op lhs rhs =>
      "BinOp \x7b op: " ++ binaryOperandToString op ++ ", left: " ++ lhs.toStr
        ++ ", right: " ++ rhs.toStr ++ " \x7d"
  | .newSingleton ty => "NewSingle(" ++ ty.toStr ++ ")"
  | .newArray ty size => "NewArray(" ++ ty.toStr ++ ", " ++ size.toStr ++ ")"
  | .call callee args =>
      -- CallExpression::toString is "Call({functionCall})" with
      -- FunctionCall::toString (src/ast.cpp:455) inlined.
      "Call(" ++ ("FunCall \x7b callee: " ++ callee.toStr ++ ", args: ["
        ++ String.intercalate ", " (exprListToStr args) ++ "] \x7d") ++ ")"

def exprListToStr : List Expr → List String
  | [] => []
  | e :: es => e.toStr :: exprListToStr es

/-- `toString` of each place variant (src/ast.cpp). -/
def Place.toStr : Place → String
  | .id name => "Id(\"" ++ name ++ "\")"
  | .deref expression => "Deref(" ++ expression.toStr ++ ")"
  | .arrayAccess array index =>
      "ArrayAccess \x7b array: " ++ array.toStr ++ ", idx: " ++ index.toStr ++ " \x7d"
  | .fieldAccess pointer field =>
      "FieldAccess \x7b ptr: " ++ pointer.toStr ++ ", field: \"" ++ field ++ "\" \x7d"

end

/-- `FunctionCall::toString` (src/ast.cpp:455). -/
def funCallToStr (callee : Expr) (args : List Expr) : String :=
  "FunCall \x7b callee: " ++ callee.toStr ++ ", args: ["
    ++ String.intercalate ", " (exprListToStr args) ++ "] \x7d"

/-- `Gamma` (src/types.hpp): identifier → type. -/
abbrev Gamma := List (String × Ty)

/-- `Delta` (src/types.hpp): struct name → (field name → type). -/
abbrev Delta := List (String × List (String × Ty))

/-- `std::unordered_map` lookup. -/
def mapFind {α : Type} (m : List (String × α)) (k : String) : Option α :=
  (m.find? (fun p => p.1 == k)).map (fun p => p.2)

/-- `std::unordered_map` assignment `m[k] = v` (overwrites any prior binding). -/
def mapSet {α : Type} (m : List (String × α)) (k : String) (v : α) : List (String × α) :=
  (k, v) :: m.filter (fun p => p.1 ≠ k)

/-! Message builders, one per throw site of the checking functions
(src/ast.cpp), named after the node that throws. -/

/-- Select::check, non-int guard. -/
def selectGuardErr (t : Ty) (guardStr : String) : String :=
  "non-int type " ++ t.toStringPretty ++ " for select guard '" ++ guardStr ++ "'"

/-- Select::check, branch type mismatch. -/
def selectBranchesErr (t1 t2 : Ty) (s1 s2 : String) : String :=
  "incompatible types " ++ t1.toStringPretty ++ " vs " ++ t2.toStringPretty
    ++ " in select branches '" ++ s1 ++ "' vs '" ++ s2 ++ "'"

/-- UnaryOperation::check, non-int operand. -/
def unopErr (t : Ty) (thisStr : String) : String :=
  "non-int operand type " ++ t.toStringPretty ++ " in unary op '" ++ thisStr ++ "'"

/-- BinaryOperation::check, Eq/NotEq operand type mismatch. -/
def binopIncompatErr (t1 t2 : Ty) (thisStr : String) : String :=
  "incompatible types " ++ t1.toStringPretty ++ " vs " ++ t2.toStringPretty
    ++ " in binary op '" ++ thisStr ++ "'"

/-- BinaryOperation::check, Eq/NotEq on a Struct or Function operand. -/
def binopInvalidErr (t : Ty) (thisStr : String) : String :=
  "invalid type " ++ t.toStringPretty ++ " used in binary op '" ++ thisStr ++ "'"

/-- BinaryOperation::check, non-int left operand. -/
def binopLeftErr (t : Ty) (thisStr : String) : String :=
  "non-int type " ++ t.toStringPretty ++ " for left operand of binary op '"
    ++ thisStr ++ "'"

/-- BinaryOperation::check, non-int right operand. -/
def binopRightErr (t : Ty) (thisStr : String) : String :=
  "non-int type " ++ t.toStringPretty ++ " for right operand of binary op '"
    ++ thisStr ++ "'"

/-- NewSingleton::check, Nil or Function pointee. -/
def newSingletonErr (thisStr : String) : String :=
  "invalid type used for allocation '" ++ thisStr ++ "'"

/-- NewArray::check, non-int size. -/
def newArraySizeErr (t : Ty) (thisStr : String) : String :=
  "non-int type " ++ t.toStringPretty ++ " used for second argument of allocation '"
    ++ thisStr ++ "'"

/-- NewArray::check, Nil/Function/Struct element type. -/
def newArrayTypeErr (thisStr : String) : String :=
  "invalid type used for first argument of allocation '" ++ thisStr ++ "'"

/-- FunctionCall::check, callee not a function or function pointer. -/
def callNotFunctionErr (t : Ty) (callStr : String) : String :=
  "trying to call type " ++ t.toStringPretty ++ " as function pointer in call '"
    ++ callStr ++ "'"

/-- FunctionCall::check, wrong argument count. -/
def callArgCountErr (nArgs nParams : Nat) (callStr : String) : String :=
  "incorrect number of arguments (" ++ toString nArgs ++ " vs " ++ toString nParams
    ++ ") in call '" ++ callStr ++ "'"

/-- FunctionCall::check, argument type mismatch. -/
def callArgTypeErr (argType paramType : Ty) (argStr callStr : String) : String :=
  "incompatible argument type " ++ argType.toStringPretty ++ " vs parameter type "
    ++ paramType.toStringPretty ++ " for argument '" ++ argStr ++ "' in call '"
    ++ callStr ++ "'"

/-- Identifier::check, unbound name. -/
def idErr (name : String) : String :=
  "id " ++ name ++ " does not exist in this scope"

/-- Dereference::check, non-pointer operand. -/
def derefErr (t : Ty) (thisStr : String) : String :=
  "non-pointer type " ++ t.toStringPretty ++ " for dereference 'Val(" ++ thisStr ++ ")'"

/-- ArrayAccess::check, non-int index. -/
def arrayIndexErr (t : Ty) (thisStr : String) : String :=
  "non-int index type " ++ t.toStringPretty ++ " for array access '" ++ thisStr ++ "'"

/-- ArrayAccess::check, non-array base (both throws use this message). -/
def arrayBaseErr (t : Ty) (thisStr : String) : String :=
  "non-array type " ++ t.toStringPretty ++ " for array access '" ++ thisStr ++ "'"

/-- FieldAccess::check, base not a pointer / pointee not a struct: the two
throws at src/ast.cpp:370 and src/ast.cpp:376 share this wording. -/
def fieldNotStructPtrErr (baseTypeStr thisStr : String) : String :=
  baseTypeStr ++ " is not a struct pointer type in field access '" ++ thisStr ++ "'"

/-- FieldAccess::check, struct name absent from Delta. -/
def fieldNoStructErr (s thisStr : String) : String :=
  "non-existent struct type " ++ s ++ " in field access '" ++ thisStr ++ "'"

/-- FieldAccess::check, field absent from the struct's field table. -/
def fieldNoFieldErr (s field thisStr : String) : String :=
  "non-existent field " ++ s ++ "::" ++ field ++ " in field access '" ++ thisStr ++ "'"

/-- Assignment::check, Struct/Function/Nil left-hand side. -/
def assignInvalidErr (t : Ty) (thisStr : String) : String :=
  "invalid type " ++ t.toStringPretty ++ " for left-hand side of assignment '"
    ++ thisStr ++ "'"

/-- Assignment::check, type mismatch. -/
def assignIncompatErr (t1 t2 : Ty) (thisStr : String) : String :=
  "incompatible types " ++ t1.toStringPretty ++ " vs " ++ t2.toStringPretty
    ++ " for assignment '" ++ thisStr ++ "'"

/-- If::check, non-int guard. -/
def ifGuardErr (t : Ty) (guardStr : String) : String :=
  "non-int type " ++ t.toStringPretty ++ " for if guard '" ++ guardStr ++ "'"

/-- While::check, non-int guard. -/
def whileGuardErr (t : Ty) (guardStr : String) : String :=
  "non-int type " ++ t.toStringPretty ++ " for while guard '" ++ guardStr ++ "'"

/-- Return::check, expression type mismatch. -/
def returnIncompatErr (t : Ty) (eStr : String) (rt : Ty) : String :=
  "incompatible return type " ++ t.toStringPretty ++ " for 'return " ++ eStr
    ++ "', should be " ++ rt.toStringPretty

/-- Return::check, bare return with a non-Int return type. -/
def returnMissingErr (rt : Ty) : String :=
  "missing return expression for non-int function type " ++ rt.toStringPretty

mutual

/-- `Expression::check` of each variant (src/ast.cpp).  Thrown
`std::runtime_error`s are embedded as `Except.error` with the exact message. -/
def exprCheck : Expr → Gamma → Delta → Except String Ty
  | .value place, γ, δ => placeCheck place γ δ
  | .num _, _, _ => .ok .int
  | .nil, _, _ => .ok .nil
  | .select guard ttCase ffCase, γ, δ => do
      let guardType ← exprCheck guard γ δ
      if guardType.kind != .INT then
        .error (selectGuardErr guardType guard.toStr)
      else do
        let ttCaseType ← exprCheck ttCase γ δ
        let ffCaseType ← exprCheck ffCase γ δ
        if !typesEqual ttCaseType ffCaseType then
          .error (selectBranchesErr ttCaseType ffCaseType ttCase.toStr ffCase.toStr)
        else
          .ok (if ttCaseType.kind == .NIL then ffCaseType else ttCaseType)
  | .unop op expression, γ, δ => do
      let operandType ← exprCheck expression γ δ
      if operandType.kind != .INT then
        .error (unopErr operandType (Expr.toStr (.unop op expression)))
      else .ok .int
  | .binop op lhs rhs, γ, δ => do
      let lhsType ← exprCheck lhs γ δ
      let rhsType ← exprCheck rhs γ δ
      let thisStr := Expr.toStr (.binop op lhs rhs)
      if op == .EQ || op == .NOT_EQ then
        if !typesEqual lhsType rhsType then
          .error (binopIncompatErr lhsType rhsType thisStr)
        else if lhsType.kind == .STRUCT || lhsType.kind == .FUNCTION then
          .error (binopInvalidErr lhsType thisStr)
        else if rhsType.kind == .STRUCT || rhsType.kind == .FUNCTION then
          .error (binopInvalidErr rhsType thisStr)
        else .ok .int
      else
        if !typesEqual lhsType .int then
          .error (binopLeftErr lhsType thisStr)
        else if !typesEqual rhsType .int then
          .error (binopRightErr rhsType thisStr)
        else .ok .int
  | .newSingleton ty, _, _ =>
      if ty.kind == .NIL || ty.kind == .FUNCTION then
        .error (newSingletonErr (Expr.toStr (.newSingleton ty)))
      else .ok (.ptr ty)
  | .newArray ty size, γ, δ => do
      let sizeType ← exprCheck size γ δ
      let thisStr := Expr.toStr (.newArray ty size)
      if !typesEqual sizeType .int then
        .error (newArraySizeErr sizeType thisStr)
      else if ty.kind == .NIL || ty.kind == .FUNCTION || ty.kind == .STRUCT then
        .error (newArrayTypeErr thisStr)
      else .ok (.array ty)
  | .call callee args, γ, δ =>
      -- FunctionCall::check (src/ast.cpp:407).  The first dynamic_cast of the
      -- callee to Identifier can never succeed (Identifier is a Place, not an
      -- Expression), so only the Value-wrapped Identifier branch is live.
      let isMainCall : Bool := match callee with
        | .value (.id n) => n == "main"
        | _ => false
      if isMainCall then .error "trying to call 'main'"
      else do
        let calleeType ← exprCheck callee γ δ
        match (match calleeType with
          | .fn ps r => some (ps, r)
          | .ptr (.fn ps r) => some (ps, r)
          | _ => (none : Option (List Ty × Ty))) with
        | none => .error (callNotFunctionErr calleeType (funCallToStr callee args))
        | some (ps, r) =>
            if args.length != ps.length then
              .error (callArgCountErr args.length ps.length (funCallToStr callee args))
            else do
              argsCheck args ps γ δ (funCallToStr callee args)
              .ok r

/-- The argument loop of `FunctionCall::check` (src/ast.cpp:441), run after the
argument count was found equal to the parameter count. -/
def argsCheck : List Expr → List Ty → Gamma → Delta → String → Except String Unit
  | [], _, _, _, _ => .ok ()
  | _ :: _, [], _, _, _ => .ok ()
  | a :: as, p :: ps, γ, δ, callStr => do
      let argType ← exprCheck a γ δ
      if !typesEqual argType p then
        .error (callArgTypeErr argType p a.toStr callStr)
      else argsCheck as ps γ δ callStr

/-- `Place::check` of each variant (src/ast.cpp). -/
def placeCheck : Place → Gamma → Delta → Except String Ty
  | .id name, γ, _ =>
      match mapFind γ name with
      | some t => .ok t
      | none => .error (idErr name)
  | .deref expression, γ, δ => do
      let pointeeType ← exprCheck expression γ δ
      match pointeeType with
      | .ptr p => .ok p
      | _ => .error (derefErr pointeeType (Place.toStr (.deref expression)))
  | .arrayAccess array index, γ, δ => do
      let arrayType ← exprCheck array γ δ
      let indexType ← exprCheck index γ δ
      let thisStr := Place.toStr (.arrayAccess array index)
      if !typesEqual indexType .int then
        .error (arrayIndexErr indexType thisStr)
      else
        match arrayType with
        | .array elementType => .ok elementType
        | _ =>
          -- The source has two throws with the same message, one guarded by
          -- typesEqual(arrayType, NIL_TYPE).
          if typesEqual arrayType .nil then
            .error (arrayBaseErr arrayType thisStr)
          else
            .error (arrayBaseErr arrayType thisStr)
  | .fieldAccess pointer field, γ, δ => do
      let baseType ← exprCheck pointer γ δ
      let baseTypeStr := baseType.toStringPretty
      let thisStr := Place.toStr (.fieldAccess pointer field)
      match baseType with
      | .ptr pointeeType =>
          match pointeeType with
          | .struct s =>
              -- For StructType, toStringPretty is the name, so the count key
              -- (name) and the at key (pretty string) agree.
              match mapFind δ s with
              | none => .error (fieldNoStructErr s thisStr)
              | some fields =>
                  match mapFind fields field with
                  | none => .error (fieldNoFieldErr s field thisStr)
                  | some t => .ok t
          | _ => .error (fieldNotStructPtrErr baseTypeStr thisStr)
      | _ => .error (fieldNotStructPtrErr baseTypeStr thisStr)

end

/-- Statement nodes (src/ast.hpp).  `CallStatement` holds a
`FunctionCall{callee, args}`, flattened as in `Expr.call`. -/
inductive Stmt where
  | stmts (statements : List Stmt)
  | assign (place : Place) (expression : Expr)
  | callStmt (callee : Expr) (args : List Expr)
  | ifStmt (guard : Expr) (happyPath : Stmt) (unhappyPath : Option Stmt)
  | whileStmt (guard : Expr) (body : Stmt)
  | breakStmt
  | continueStmt
  | ret (expression : Option Expr)

mutual

/-- `Statement::check` of each variant (src/ast.cpp): returns the
definitely-returns boolean, or the first error raised. -/
def stmtCheck : Stmt → Gamma → Delta → Ty → Bool → Except String Bool
  | .stmts statements, γ, δ, returnType, inLoop =>
      stmtListCheck statements γ δ returnType inLoop false
  | .assign place expression, γ, δ, _, _ => do
      let lhsType ← placeCheck place γ δ
      let rhsType ← exprCheck expression γ δ
      let thisStr := "Assign(" ++ place.toStr ++ ", " ++ expression.toStr ++ ")"
      if lhsType.kind == .STRUCT || lhsType.kind == .FUNCTION || lhsType.kind == .NIL then
        .error (assignInvalidErr lhsType thisStr)
      else if !typesEqual lhsType rhsType then
        .error (assignIncompatErr lhsType rhsType thisStr)
      else .ok false
  | .callStmt callee args, γ, δ, _, _ => do
      let _ ← exprCheck (.call callee args) γ δ
      .ok false
  | .ifStmt guard happyPath unhappyPath, γ, δ, returnType, inLoop => do
      let guardType ← exprCheck guard γ δ
      if !typesEqual guardType .int then
        .error (ifGuardErr guardType guard.toStr)
      else do
        let happyPathReturns ← stmtCheck happyPath γ δ returnType inLoop
        let unhappyPathReturns ← match unhappyPath with
          | some u => stmtCheck u γ δ returnType inLoop
          | none => pure false
        .ok (happyPathReturns && unhappyPathReturns)
  | .whileStmt guard body, γ, δ, returnType, _ => do
      let guardType ← exprCheck guard γ δ
      if !typesEqual guardType .int then
        .error (whileGuardErr guardType guard.toStr)
      else do
        let _ ← stmtCheck body γ δ returnType true
        .ok false
  | .breakStmt, _, _, _, inLoop =>
      if !inLoop then .error "break outside loop" else .ok false
  | .continueStmt, _, _, _, inLoop =>
      if !inLoop then .error "continue outside loop" else .ok false
  | .ret expression, γ, δ, returnType, _ =>
      match expression with
      | some e => do
          let expressionType ← exprCheck e γ δ
          if !typesEqual expressionType returnType then
            .error (returnIncompatErr expressionType e.toStr returnType)
          else .ok true
      | none =>
          if !typesEqual returnType .int then
            .error (returnMissingErr returnType)
          else .error "return statement requires an expression in this function"

/-- `Statements::check` (src/ast.cpp:478): once a child definitely returns,
later children are still checked but the accumulated result stays fixed. -/
def stmtListCheck : List Stmt → Gamma → Delta → Ty → Bool → Bool → Except String Bool
  | [], _, _, _, _, doesReturn => .ok doesReturn
  | s :: rest, γ, δ, returnType, inLoop, doesReturn =>
      if doesReturn then do
        let _ ← stmtCheck s γ δ returnType inLoop
        stmtListCheck rest γ δ returnType inLoop doesReturn
      else do
        let b ← stmtCheck s γ δ returnType inLoop
        stmtListCheck rest γ δ returnType inLoop b

end

/-- `Declaration` (src/ast.hpp). -/
structure Decl where
  name : String
  type : Ty

/-- `StructDefinition` (src/ast.hpp). -/
structure StructDef where
  name : String
  fields : List Decl

/-- `Extern` (src/ast.hpp). -/
structure ExternDef where
  name : String
  paramTypes : List Ty
  returnType : Ty

/-- `FunctionDefinition` (src/ast.hpp). -/
structure FuncDef where
  name : String
  params : List Decl
  returnType : Ty
  locals : List Decl
  body : Stmt

/-- `Program` (src/ast.hpp). -/
structure Program where
  structs : List StructDef
  externs : List ExternDef
  functions : List FuncDef

/-- The field loop of `StructDefinition::check` (src/ast.cpp:680).  The source
tests membership in `fieldNames` but never inserts into it, so the set stays
as passed in. -/
def structFieldsCheck (structName : String) : List Decl → List String → Except String Unit
  | [], _ => .ok ()
  | field :: rest, fieldNames =>
      if field.type.kind == .NIL || field.type.kind == .STRUCT
          || field.type.kind == .FUNCTION then
        .error ("invalid type " ++ field.type.toStringPretty ++ " for struct field "
          ++ structName ++ "::" ++ field.name)
      else if fieldNames.contains field.name then
        .error ("Duplicate field name '" ++ field.name ++ "' in struct '"
          ++ structName ++ "'")
      else structFieldsCheck structName rest fieldNames

/-- `StructDefinition::check` (src/ast.cpp:673). -/
def structDefCheck (s : StructDef) (_γ : Gamma) (_δ : Delta) : Except String Unit :=
  if s.fields.isEmpty then .error ("empty struct " ++ s.name)
  else structFieldsCheck s.name s.fields []

/-- The parameter/local loops of `FunctionDefinition::check` (src/ast.cpp:736,
src/ast.cpp:750).  The source tests membership in `localNames` but never
inserts into it; `localGamma` is extended by map assignment. -/
def declsCheck (functionName : String) :
    List Decl → List String → Gamma → Except String Gamma
  | [], _, localGamma => .ok localGamma
  | d :: rest, localNames, localGamma =>
      if d.type.kind == .NIL || d.type.kind == .STRUCT || d.type.kind == .FUNCTION then
        .error ("invalid type " ++ d.type.toStringPretty ++ " for variable "
          ++ d.name ++ " in function " ++ functionName)
      else if localNames.contains d.name then
        .error ("Duplicate parameter/local name '" ++ d.name ++ "' in function '"
          ++ functionName ++ "'")
      else declsCheck functionName rest localNames (mapSet localGamma d.name d.type)

/-- `FunctionDefinition::check` (src/ast.cpp:732).  The body pointer is
non-null in a well-formed tree; the source then requires the body to be a
non-empty `Statements` node. -/
def funcDefCheck (f : FuncDef) (γ : Gamma) (δ : Delta) : Except String Unit := do
  let localNames : List String := []
  let localGamma ← declsCheck f.name f.params localNames γ
  let localGamma ← declsCheck f.name f.locals localNames localGamma
  match f.body with
  | .stmts l =>
      if l.isEmpty then .error ("function " ++ f.name ++ " has an empty body")
      else do
        let doesReturn ← stmtCheck f.body localGamma δ f.returnType false
        if !doesReturn then
          .error ("function " ++ f.name ++ " may not execute a return")
        else .ok ()
  | _ => .error ("function " ++ f.name ++ " has an invalid body structure (expected Stmts)")

/-- `constructGamma` (src/checker.cpp:409): externs as Function types, then
non-main functions as Pointer-to-Function types. -/
def constructGamma (externs : List ExternDef) (functions : List FuncDef) : Gamma :=
  let γ := externs.foldl (fun γ e => mapSet γ e.name (.fn e.paramTypes e.returnType)) []
  functions.foldl
    (fun γ f =>
      if f.name != "main" then
        mapSet γ f.name (.ptr (.fn (f.params.map (fun p => p.type)) f.returnType))
      else γ) γ

/-- `constructDelta` (src/checker.cpp:428). -/
def constructDelta (structs : List StructDef) : Delta :=
  structs.foldl
    (fun δ s =>
      mapSet δ s.name (s.fields.foldl (fun fields fd => mapSet fields fd.name fd.type) []))
    []

/-- The final phase of `Program::check` (src/ast.cpp:852): check every struct,
then every function, against the constructed Gamma and Delta. -/
def checkDefinitions (p : Program) : Except String Unit := do
  let γ := constructGamma p.externs p.functions
  let δ := constructDelta p.structs
  p.structs.forM (fun s => structDefCheck s γ δ)
  p.functions.forM (fun f => funcDefCheck f γ δ)

/-- `Program::check` (src/ast.cpp:814).  The three duplicate-name loops test
membership in `topLevelNames`, which the source never inserts into. -/
def programCheck (p : Program) : Except String Unit := do
  let topLevelNames : List String := []
  p.structs.forM (fun s =>
    if topLevelNames.contains s.name then
      Except.error ("Duplicate name: " ++ s.name)
    else pure ())
  p.externs.forM (fun e =>
    if topLevelNames.contains e.name then
      Except.error ("Duplicate name: " ++ e.name)
    else pure ())
  p.functions.forM (fun f =>
    if f.name != "main" && topLevelNames.contains f.name then
      Except.error ("Duplicate name: " ++ f.name)
    else pure ())
  let γ := constructGamma p.externs p.functions
  let δ := constructDelta p.structs
  let mainFound := p.functions.foldl
    (fun mainFound f =>
      if f.name == "main" then
        if f.params.isEmpty && typesEqual f.returnType .int then true else mainFound
      else mainFound)
    false
  if !mainFound then
    Except.error "no 'main' function with type '() -> int' exists"
  else do
    p.structs.forM (fun s => structDefCheck s γ δ)
    p.functions.forM (fun f => funcDefCheck f γ δ)

/-- Which of the four cascaded failure tests of `FieldAccess::check`
(src/ast.cpp:361) fires: 1 = base type is not a pointer, 2 = pointee is not a
struct, 3 = struct name absent from Delta, 4 = field absent from the struct's
field table; `none` when the base expression fails or the access succeeds. -/
def fieldAccessFailLevel (pointer : Expr) (field : String) (γ : Gamma) (δ : Delta) :
    Option Nat :=
  match exprCheck pointer γ δ with
  | .error _ => none
  | .ok baseType =>
      match baseType with
      | .ptr (.struct s) =>
          match mapFind δ s with
          | none => some 3
          | some fields => if (mapFind fields field).isNone then some 4 else none
      | .ptr _ => some 2
      | _ => some 1

/-- The per-function condition under which `Program::check` sets `mainFound`
(src/ast.cpp:841): the function is named `main`, has no parameters, and its
return type `typesEqual`s Int. -/
def hasMainSig (f : FuncDef) : Bool :=
  f.name == "main" && (f.params.isEmpty && typesEqual f.returnType .int)

/-! Concrete sample inputs used to instantiate the theorems below. -/

/-- A body consisting of the single statement `return 0`. -/
def returnZeroBody : Stmt := .stmts [.ret (some (.num 0))]

/-- `main() -> int { return 0; }` -/
def mainFn : FuncDef := ⟨"main", [], .int, [], returnZeroBody⟩

/-- A function named `main` with the wrong signature: one Int parameter. -/
def wrongMainFn : FuncDef := ⟨"main", [⟨"x", .int⟩], .int, [], returnZeroBody⟩

/-- A program with two identical, correctly-signed `main` functions. -/
def twoMainProgram : Program := ⟨[], [], [mainFn, mainFn]⟩

/-- A program whose only `main` has the wrong signature. -/
def wrongMainProgram : Program := ⟨[], [], [wrongMainFn]⟩

/-- A program with both a wrongly-signed and a correctly-signed `main`. -/
def mixedMainProgram : Program := ⟨[], [], [wrongMainFn, mainFn]⟩

/-- A program with two distinct struct definitions both named `S`. -/
def dupStructProgram : Program :=
  ⟨[⟨"S", [⟨"x", .int⟩]⟩, ⟨"S", [⟨"y", .int⟩]⟩], [], [mainFn]⟩

/-- A function with two parameters both named `x`. -/
def dupParamFunction : FuncDef :=
  ⟨"f", [⟨"x", .int⟩, ⟨"x", .int⟩], .int, [], returnZeroBody⟩

/-- A struct with two fields both named `x`. -/
def dupFieldStruct : StructDef := ⟨"S", [⟨"x", .int⟩, ⟨"x", .int⟩]⟩

/-- The base expression `x` of the field accesses used for C9. -/
def faBase : Expr := .value (.id "x")

/-! ### Theorems -/

theorem beq_symmetric {α : Type} [BEq α] [LawfulBEq α] (a b : α) :
    (a == b) = (b == a) := by
  by_cases h : a = b
  · subst h; rfl
  · rw [beq_eq_false_iff_ne.mpr h, beq_eq_false_iff_ne.mpr (Ne.symm h)]

mutual

theorem typesEqual_refl : (t : Ty) → typesEqual t t = true
  | .int => rfl
  | .nil => rfl
  | .struct n => beq_self_eq_true n
  | .array e => typesEqual_refl e
  | .ptr p => typesEqual_refl p
  | .fn ps r => by
      show (((ps.length == ps.length) && typesEqualList ps ps) && typesEqual r r) = true
      rw [beq_self_eq_true, typesEqualList_refl ps, typesEqual_refl r]
      rfl

theorem typesEqualList_refl : (l : List Ty) → typesEqualList l l = true
  | [] => rfl
  | a :: as => by
      show (typesEqual a a && typesEqualList as as) = true
      rw [typesEqual_refl a, typesEqualList_refl as]
      rfl

end

mutual

theorem typesEqual_symm : (a b : Ty) → typesEqual a b = typesEqual b a
  | .int, b => by cases b <;> rfl
  | .nil, b => by cases b <;> rfl
  | .struct n, .struct m => beq_symmetric n m
  | .struct _, .int => rfl
  | .struct _, .nil => rfl
  | .struct _, .array _ => rfl
  | .struct _, .ptr _ => rfl
  | .struct _, .fn _ _ => rfl
  | .array e, .array f => typesEqual_symm e f
  | .array _, .int => rfl
  | .array _, .nil => rfl
  | .array _, .struct _ => rfl
  | .array _, .ptr _ => rfl
  | .array _, .fn _ _ => rfl
  | .ptr p, .ptr q => typesEqual_symm p q
  | .ptr _, .int => rfl
  | .ptr _, .nil => rfl
  | .ptr _, .struct _ => rfl
  | .ptr _, .array _ => rfl
  | .ptr _, .fn _ _ => rfl
  | .fn ps r, .fn qs s => by
      show (((ps.length == qs.length) && typesEqualList ps qs) && typesEqual r s)
          = (((qs.length == ps.length) && typesEqualList qs ps) && typesEqual s r)
      rw [beq_symmetric ps.length qs.length, typesEqualList_symm ps qs,
        typesEqual_symm r s]
  | .fn _ _, .int => rfl
  | .fn _ _, .nil => rfl
  | .fn _ _, .struct _ => rfl
  | .fn _ _, .array _ => rfl
  | .fn _ _, .ptr _ => rfl

theorem typesEqualList_symm : (l m : List Ty) → typesEqualList l m = typesEqualList m l
  | [], [] => rfl
  | [], _ :: _ => rfl
  | _ :: _, [] => rfl
  | a :: as, b :: bs => by
      show (typesEqual a b && typesEqualList as bs) = (typesEqual b a && typesEqualList bs as)
      rw [typesEqual_symm a b, typesEqualList_symm as bs]

end

/-- C1: `typesEqual` is reflexive and symmetric; Nil is equal to Nil, to every
Pointer type and to every Array type in both argument orders; every other pair
of types whose variants differ is unequal. -/
theorem c1_typesEqual_relation :
    (∀ t : Ty, typesEqual t t = true) ∧
    (∀ a b : Ty, typesEqual a b = typesEqual b a) ∧
    (typesEqual .nil .nil = true) ∧
    (∀ t : Ty, typesEqual .nil (.ptr t) = true ∧ typesEqual (.ptr t) .nil = true ∧
      typesEqual .nil (.array t) = true ∧ typesEqual (.array t) .nil = true) ∧
    (∀ a b : Ty, a.kind ≠ b.kind →
      ¬ (a.kind = .NIL ∧ (b.kind = .POINTER ∨ b.kind = .ARRAY)) →
      ¬ (b.kind = .NIL ∧ (a.kind = .POINTER ∨ a.kind = .ARRAY)) →
      typesEqual a b = false) := by
  refine ⟨typesEqual_refl, typesEqual_symm, rfl, fun t => ⟨rfl, rfl, rfl, rfl⟩, ?_⟩
  intro a b h1 h2 h3
  cases a <;> cases b <;>
    first
      | rfl
      | exact (h1 rfl).elim
      | exact (h2 ⟨rfl, Or.inl rfl⟩).elim
      | exact (h2 ⟨rfl, Or.inr rfl⟩).elim
      | exact (h3 ⟨rfl, Or.inl rfl⟩).elim
      | exact (h3 ⟨rfl, Or.inr rfl⟩).elim

/-- Concrete instantiation of the conditional part of C1. -/
theorem c1_typesEqual_relation_witness : typesEqual (.struct "a") .int = false :=
  c1_typesEqual_relation.2.2.2.2 (.struct "a") .int (by decide) (by decide) (by decide)

theorem except_bind_ok {ε α β : Type} (a : α) (f : α → Except ε β) :
    (Except.ok a >>= f) = f a := rfl

theorem except_bind_error {ε α β : Type} (e : ε) (f : α → Except ε β) :
    ((Except.error e : Except ε α) >>= f) = Except.error e := rfl

/-- The `mainFound` fold of `Program::check` computes exactly "some function
satisfies the main-signature condition". -/
theorem mainFound_eq_any (fns : List FuncDef) (b : Bool) :
    fns.foldl
      (fun mainFound f =>
        if f.name == "main" then
          if f.params.isEmpty && typesEqual f.returnType .int then true else mainFound
        else mainFound)
      b
    = (b || fns.any hasMainSig) := by
  induction fns generalizing b with
  | nil => simp
  | cons f fs ih =>
      rw [List.foldl_cons, ih, List.any_cons]
      cases h1 : (f.name == "main") <;>
        cases h2 : (f.params.isEmpty && typesEqual f.returnType .int) <;>
          simp [hasMainSig, h1, h2, Bool.or_assoc]

/-- `Program::check` factored: the three duplicate-name loops never fire (the
source never inserts into `topLevelNames`), so the whole check reduces to the
`main` test followed by the struct and function checks. -/
theorem programCheck_eq (p : Program) :
    programCheck p =
      if p.functions.any hasMainSig then checkDefinitions p
      else .error "no 'main' function with type '() -> int' exists" := by
  have hc : ∀ n : String, ([] : List String).contains n = false := fun _ => rfl
  have h1 : p.structs.forM
      (fun s =>
        if ([] : List String).contains s.name then
          Except.error ("Duplicate name: " ++ s.name)
        else pure ()) = pure () := by
    induction p.structs with
    | nil => rfl
    | cons a as ih => exact ih
  have h2 : p.externs.forM
      (fun e =>
        if ([] : List String).contains e.name then
          Except.error ("Duplicate name: " ++ e.name)
        else pure ()) = pure () := by
    induction p.externs with
    | nil => rfl
    | cons a as ih => exact ih
  have h3 : p.functions.forM
      (fun f =>
        if f.name != "main" && ([] : List String).contains f.name then
          Except.error ("Duplicate name: " ++ f.name)
        else pure ()) = pure () := by
    induction p.functions with
    | nil => rfl
    | cons a as ih =>
        show (if a.name != "main" && ([] : List String).contains a.name then
            Except.error ("Duplicate name: " ++ a.name)
          else pure ()) >>= _ = _
        rw [hc, Bool.and_false]
        exact ih
  unfold programCheck
  dsimp only
  rw [h1, pure_bind, h2, pure_bind, h3, pure_bind, mainFound_eq_any]
  cases h : p.functions.any hasMainSig <;> simp [checkDefinitions]

/-- C2 counterexample: a program with two correctly-signed `main` functions
passes `Program::check`, so "more than one main" is not a fatal validation
failure. -/
theorem c2_two_mains_accepted :
    twoMainProgram.functions.countP (fun f => f.name == "main") = 2 ∧
    programCheck twoMainProgram = .ok () :=
  ⟨rfl, rfl⟩

/-- C2 (amended): validation requires at least one function named `main` with
zero parameters and return type Int; when none exists (no `main` at all, or
only wrongly-signed ones) the check fails with exactly the message
"no 'main' function with type '() -> int' exists".  Duplicate correctly-signed
mains are not rejected. -/
theorem c2_main_validation (p : Program)
    (h : p.functions.any hasMainSig = false) :
    programCheck p = .error "no 'main' function with type '() -> int' exists" := by
  rw [programCheck_eq, h]
  rfl

/-- Concrete instantiation of C2 at a program whose only `main` takes a
parameter. -/
theorem c2_main_validation_witness :
    programCheck wrongMainProgram =
      .error "no 'main' function with type '() -> int' exists" :=
  c2_main_validation wrongMainProgram rfl

/-- C3: `Program::check` accepts a program with two top-level structs of the
same name, because the duplicate-name loops test membership in a set that is
never inserted into. -/
theorem c3_duplicate_top_level_names_accepted :
    dupStructProgram.structs.countP (fun s => s.name == "S") = 2 ∧
    programCheck dupStructProgram = .ok () :=
  ⟨rfl, rfl⟩

/-- C4: `FunctionDefinition::check` accepts a function with two parameters of
the same name, because `localNames` is never inserted into. -/
theorem c4_duplicate_param_names_accepted :
    dupParamFunction.params.countP (fun d => d.name == "x") = 2 ∧
    funcDefCheck dupParamFunction [] [] = .ok () :=
  ⟨rfl, rfl⟩

/-- C5: `StructDefinition::check` accepts a struct with two fields of the same
name, because `fieldNames` is never inserted into. -/
theorem c5_duplicate_field_names_accepted :
    dupFieldStruct.fields.countP (fun d => d.name == "x") = 2 ∧
    structDefCheck dupFieldStruct [] [] = .ok () :=
  ⟨rfl, rfl⟩

/-- C6: for an If whose guard typed to an Int-compatible type, with an else
branch the If definitely returns exactly when both branches do; without an
else branch the result is false whatever the then branch reports. -/
theorem c6_if_definitely_returns (γ : Gamma) (δ : Delta) (returnType : Ty)
    (inLoop : Bool) (guard : Expr) (happyPath u : Stmt) (gt : Ty)
    (h1 : exprCheck guard γ δ = .ok gt) (h2 : typesEqual gt .int = true) :
    (stmtCheck (.ifStmt guard happyPath (some u)) γ δ returnType inLoop =
      match stmtCheck happyPath γ δ returnType inLoop,
          stmtCheck u γ δ returnType inLoop with
      | .ok b1, .ok b2 => .ok (b1 && b2)
      | .error e, _ => .error e
      | .ok _, .error e => .error e) ∧
    (stmtCheck (.ifStmt guard happyPath none) γ δ returnType inLoop =
      match stmtCheck happyPath γ δ returnType inLoop with
      | .ok _ => .ok false
      | .error e => .error e) := by
  constructor
  · cases hh : stmtCheck happyPath γ δ returnType inLoop with
    | error e => simp [stmtCheck, h1, h2, hh, except_bind_ok, except_bind_error]
    | ok b1 =>
        cases hu : stmtCheck u γ δ returnType inLoop with
        | error e =>
            simp [stmtCheck, h1, h2, hh, hu, except_bind_ok, except_bind_error]
        | ok b2 =>
            simp [stmtCheck, h1, h2, hh, hu, except_bind_ok, except_bind_error]
  · cases hh : stmtCheck happyPath γ δ returnType inLoop with
    | error e => simp [stmtCheck, h1, h2, hh, except_bind_ok, except_bind_error]
    | ok b1 => simp [stmtCheck, h1, h2, hh, except_bind_ok, except_bind_error]

/-- Concrete instantiation of C6: an If whose then branch returns but which
has no else branch reports false; with an else branch that also returns it
reports true. -/
theorem c6_if_definitely_returns_witness :
    (stmtCheck (.ifStmt (.num 1) (.ret (some (.num 0))) (some (.ret (some (.num 0)))))
        [] [] .int false = .ok true) ∧
    (stmtCheck (.ifStmt (.num 1) (.ret (some (.num 0))) none) [] [] .int false
      = .ok false) := by
  have h := c6_if_definitely_returns [] [] .int false (.num 1)
    (.ret (some (.num 0))) (.ret (some (.num 0))) .int rfl rfl
  exact ⟨h.1, h.2⟩

/-- C7: a While whose guard typed to an Int-compatible type checks its body
with `inLoop = true` and never definitely returns: the result is `.ok false`
whenever the body checks, and the body's own error otherwise. -/
theorem c7_while_never_returns (γ : Gamma) (δ : Delta) (returnType : Ty)
    (inLoop : Bool) (guard : Expr) (body : Stmt) (gt : Ty)
    (h1 : exprCheck guard γ δ = .ok gt) (h2 : typesEqual gt .int = true) :
    stmtCheck (.whileStmt guard body) γ δ returnType inLoop =
      match stmtCheck body γ δ returnType true with
      | .ok _ => .ok false
      | .error e => .error e := by
  cases hb : stmtCheck body γ δ returnType true with
  | error e => simp [stmtCheck, h1, h2, hb, except_bind_ok, except_bind_error]
  | ok b => simp [stmtCheck, h1, h2, hb, except_bind_ok, except_bind_error]

/-- Concrete instantiation of C7: a While whose body always returns still
reports false, and a bare `break` body is accepted (it is checked with
`inLoop = true` although the While itself sits outside any loop). -/
theorem c7_while_never_returns_witness :
    (stmtCheck (.whileStmt (.num 1) (.ret (some (.num 0)))) [] [] .int false
      = .ok false) ∧
    (stmtCheck (.whileStmt (.num 1) .breakStmt) [] [] .int false = .ok false) :=
  ⟨c7_while_never_returns [] [] .int false (.num 1) (.ret (some (.num 0))) .int rfl rfl,
   c7_while_never_returns [] [] .int false (.num 1) .breakStmt .int rfl rfl⟩

/-- C8: a Return with no expression fails for every declared return type: with
a non-Int return type it reports the missing-expression-for-non-int message,
and even with return type Int it still fails unconditionally. -/
theorem c8_bare_return_always_fails (γ : Gamma) (δ : Delta) (returnType : Ty)
    (inLoop : Bool) :
    stmtCheck (.ret none) γ δ returnType inLoop =
      .error (if typesEqual returnType .int then
          "return statement requires an expression in this function"
        else
          "missing return expression for non-int function type "
            ++ returnType.toStringPretty) := by
  cases h : typesEqual returnType .int <;> simp [stmtCheck, h, returnMissingErr]

/-- C9 counterexample: a level-1 failure (base type `Struct "&int"`, not a
pointer) and a level-2 failure (base type `Ptr Int`, pointer to a non-struct)
on the same field access produce the very same error, so two different levels
can yield one error. -/
theorem c9_same_error_across_levels :
    fieldAccessFailLevel faBase "f" [("x", .struct "&int")] [] = some 1 ∧
    fieldAccessFailLevel faBase "f" [("x", .ptr .int)] [] = some 2 ∧
    placeCheck (.fieldAccess faBase "f") [("x", .struct "&int")] [] =
      placeCheck (.fieldAccess faBase "f") [("x", .ptr .int)] [] ∧
    (placeCheck (.fieldAccess faBase "f") [("x", .struct "&int")] []).isOk = false :=
  ⟨rfl, rfl, rfl, rfl⟩

/-- C9 (amended): each failing level of `FieldAccess::check` produces a
specifically worded error, but the not-a-pointer and pointer-to-non-struct
levels share one wording, while the unknown-struct and unknown-field levels
each have their own. -/
theorem c9_field_access_error_wording (pointer : Expr) (field : String)
    (γ : Gamma) (δ : Delta) (bt : Ty) (h : exprCheck pointer γ δ = .ok bt) :
    placeCheck (.fieldAccess pointer field) γ δ =
      match bt with
      | .ptr (.struct s) =>
          match mapFind δ s with
          | none =>
              .error ("non-existent struct type " ++ s ++ " in field access '"
                ++ Place.toStr (.fieldAccess pointer field) ++ "'")
          | some fields =>
              match mapFind fields field with
              | none =>
                  .error ("non-existent field " ++ s ++ "::" ++ field
                    ++ " in field access '"
                    ++ Place.toStr (.fieldAccess pointer field) ++ "'")
              | some t => .ok t
      | _ =>
          .error (bt.toStringPretty
            ++ " is not a struct pointer type in field access '"
            ++ Place.toStr (.fieldAccess pointer field) ++ "'") := by
  cases bt with
  | ptr pe =>
      cases pe with
      | struct s =>
          cases hm : mapFind δ s with
          | none => simp [placeCheck, h, except_bind_ok, hm, fieldNoStructErr]
          | some fields =>
              cases hf2 : mapFind fields field with
              | none => simp [placeCheck, h, except_bind_ok, hm, hf2, fieldNoFieldErr]
              | some t => simp [placeCheck, h, except_bind_ok, hm, hf2]
      | int => simp [placeCheck, h, except_bind_ok, fieldNotStructPtrErr]
      | nil => simp [placeCheck, h, except_bind_ok, fieldNotStructPtrErr]
      | array e => simp [placeCheck, h, except_bind_ok, fieldNotStructPtrErr]
      | ptr q => simp [placeCheck, h, except_bind_ok, fieldNotStructPtrErr]
      | fn ps r => simp [placeCheck, h, except_bind_ok, fieldNotStructPtrErr]
  | int => simp [placeCheck, h, except_bind_ok, fieldNotStructPtrErr]
  | nil => simp [placeCheck, h, except_bind_ok, fieldNotStructPtrErr]
  | struct s => simp [placeCheck, h, except_bind_ok, fieldNotStructPtrErr]
  | array e => simp [placeCheck, h, except_bind_ok, fieldNotStructPtrErr]
  | fn ps r => simp [placeCheck, h, except_bind_ok, fieldNotStructPtrErr]

/-- Concrete instantiation of C9 at a successful field access. -/
theorem c9_field_access_error_wording_witness :
    placeCheck (.fieldAccess faBase "f") [("x", .ptr (.struct "S"))]
      [("S", [("f", .int)])] = .ok .int := by
  have h := c9_field_access_error_wording faBase "f"
    [("x", .ptr (.struct "S"))] [("S", [("f", .int)])] (.ptr (.struct "S")) rfl
  simpa [mapFind] using h

/-- C10: a program containing some function named `main` but none with the
correct signature fails with the same generic missing-main message, and when
a correctly-signed `main` exists the main check raises nothing and validation
proceeds to the struct and function checks. -/
theorem c10_wrong_main_same_message (p : Program) :
    (p.functions.any (fun f => f.name == "main") = true →
      p.functions.any hasMainSig = false →
      programCheck p = .error "no 'main' function with type '() -> int' exists") ∧
    (p.functions.any hasMainSig = true → programCheck p = checkDefinitions p) := by
  constructor
  · intro _ h2
    rw [programCheck_eq, h2]
    rfl
  · intro h
    rw [programCheck_eq, h]
    rfl

/-- Concrete instantiation of C10: a lone wrongly-signed `main` falls through
to the generic message, and a wrongly-signed `main` beside a correct one does
not block validation. -/
theorem c10_wrong_main_same_message_witness :
    programCheck wrongMainProgram =
      .error "no 'main' function with type '() -> int' exists" ∧
    programCheck mixedMainProgram = checkDefinitions mixedMainProgram :=
  ⟨(c10_wrong_main_same_message wrongMainProgram).1 rfl rfl,
   (c10_wrong_main_same_message mixedMainProgram).2 rfl⟩

end Cflat
